import Mathlib

/-!
Text-label streaming and Pawn component unloading.

A shallow embedding of `Server/Components/TextLabels/textlabel.hpp` and of
`PawnComponent::onInit` / `PawnComponent::onFree` from
`Server/Components/Pawn/main.cpp`.

Conventions of the embedding:

* a C++ object together with the network it talks to is a `World`: the object
  (`self`) and the list of RPCs handed to `sendRPC` so far, oldest first;
* a method is a function from `World` to `World`; a method that dereferences a
  pointer which may be null returns `Option`, `none` standing for the null
  dereference;
* `int` values are `Int` (no arithmetic is performed on them here);
* a `float` is never computed with, only stored and copied, so it is carried
  as its bit pattern.
-/

namespace OpenMP

/-! ## Plain data -/

/-- Bit pattern of a C++ `float`; the label code only stores and copies it. -/
abbrev float := Nat

/-- Modelled from the spec: `Vector3` is declared in the SDK, not in the two files. Section 3
calls the position a "3-D vector"; the label code only stores and copies it. -/
structure Vector3 where
  x : float
  y : float
  z : float
  deriving DecidableEq, Repr

/-- Modelled from the spec: `Colour` is declared in the SDK, not in the two files. Section 3
lists "color" among the attributes; the label code only stores and copies it, so its components
play no part in what is proved. -/
structure Colour where
  r : Nat
  g : Nat
  b : Nat
  a : Nat
  deriving DecidableEq, Repr

/-- Modelled from the spec: `INVALID_PLAYER_ID` is an SDK constant, not in the two files. Section 1
speaks of the wire protocol's 16-bit ID space; the marker for "no player" is its all-ones
value. The general theorems below hold whatever the value is. -/
def INVALID_PLAYER_ID : Int := 0xFFFF

/-- Modelled from the spec: `INVALID_VEHICLE_ID` is an SDK constant, not in the two files; the
marker for "no vehicle", taken like `INVALID_PLAYER_ID`. -/
def INVALID_VEHICLE_ID : Int := 0xFFFF

/-- Attachment slots of a label, the two members the label code reads and writes: one player ID
and one vehicle ID. -/
structure TextLabelAttachmentData where
  playerID : Int
  vehicleID : Int
  deriving DecidableEq, Repr

/-- Payload of the creation RPC, field for field as `streamInForClient` fills it. -/
structure PlayerShowTextLabel where
  PlayerTextLabel : Bool
  TextLabelID : Int
  Col : Colour
  Position : Vector3
  DrawDistance : float
  LOS : Bool
  PlayerAttachID : Int
  VehicleAttachID : Int
  Text : String
  deriving DecidableEq, Repr

/-- Payload of the destruction RPC, field for field as `streamOutForClient` fills it. -/
structure PlayerHideTextLabel where
  PlayerTextLabel : Bool
  TextLabelID : Int
  deriving DecidableEq, Repr

/-- The two RPCs this file sends. -/
inductive RPC where
  | showTextLabel (rpc : PlayerShowTextLabel)
  | hideTextLabel (rpc : PlayerHideTextLabel)
  deriving DecidableEq, Repr

/-- One `sendRPC` call: the ID of the player whose connection received it, and the RPC. -/
structure Sent where
  player : Int
  rpc : RPC
  deriving DecidableEq, Repr

/-- A connected player, known to this code through `getID()` and `sendRPC()`. -/
structure IPlayer where
  poolID : Int
  deriving DecidableEq, Repr

/-- A vehicle, known to this code through `getID()`. -/
structure IVehicle where
  poolID : Int
  deriving DecidableEq, Repr

/-- The `getID()` of a player. -/
def IPlayer.getID (player : IPlayer) : Int := player.poolID

/-- The `getID()` of a vehicle. -/
def IVehicle.getID (vehicle : IVehicle) : Int := vehicle.poolID

/-- Modelled from the spec: `IPlayer::sendRPC` belongs to the network layer, which is not among
the two files. Section 5 calls it fire-and-forget ("it enqueues a message and returns"), so it
appends the RPC, addressed to this player, to the record of what was sent. -/
def IPlayer.sendRPC (player : IPlayer) (rpc : RPC) (wire : List Sent) : List Sent :=
  wire ++ [Sent.mk player.getID rpc]

/-- An object (`self`) and the RPCs sent so far (`wire`, oldest first). -/
structure World (L : Type) where
  self : L
  wire : List Sent
  deriving DecidableEq, Repr

/-! ## The visibility tracker -/

/-- Modelled from the spec: `UniqueIDArray<IPlayer, IPlayerPool::Cnt>` is declared in the SDK, not
in the two files. Section 3 describes it as "a set of player IDs, capacity-bounded to the maximum
concurrent player count": the IDs held, each once. Player IDs are drawn from the player pool, whose
size is that same capacity, so the bound is not a separate constraint on the set. -/
structure UniqueIDArray where
  ids : List Int
  nodup : ids.Nodup

instance : DecidableEq UniqueIDArray := fun a b =>
  if h : a.ids = b.ids then isTrue (by cases a; cases b; cases h; rfl)
  else isFalse (fun e => h (congrArg UniqueIDArray.ids e))

instance : Repr UniqueIDArray := ⟨fun a n => reprPrec a.ids n⟩

namespace UniqueIDArray

/-- Modelled from the spec: the tracker of a freshly created label, holding nobody. -/
def empty : UniqueIDArray := ⟨[], List.nodup_nil⟩

/-- Modelled from the spec: `valid(index)`, membership of the ID in the set. -/
def valid (arr : UniqueIDArray) (index : Int) : Bool := decide (index ∈ arr.ids)

/-- Modelled from the spec: `add(index, data)`, "add player to the tracker"; adding an ID that is
already held leaves the set as it is. -/
def add (arr : UniqueIDArray) (index : Int) (_data : IPlayer) : UniqueIDArray :=
  if h : index ∈ arr.ids then arr
  else ⟨arr.ids ++ [index], List.Nodup.append arr.nodup (List.nodup_singleton index)
    (by
      intro x hx hy
      rw [List.mem_singleton] at hy
      exact h (hy ▸ hx))⟩

/-- Modelled from the spec: `remove(index, data)`, "remove player from the tracker". -/
def remove (arr : UniqueIDArray) (index : Int) (_data : IPlayer) : UniqueIDArray :=
  ⟨arr.ids.erase index, arr.nodup.erase index⟩

/-- Modelled from the spec: `entries()`, the players whose IDs the set holds. -/
def entries (arr : UniqueIDArray) : List IPlayer := arr.ids.map IPlayer.mk

end UniqueIDArray

/-! ## `TextLabelBase<T>` -/

/-- Data members of `TextLabelBase<T>`, with `poolID` from `PoolIDProvider`. -/
structure TextLabelBase where
  poolID : Int
  text : String
  pos : Vector3
  colour : Colour
  drawDist : float
  attachmentData : TextLabelAttachmentData
  testLOS : Bool
  deriving DecidableEq, Repr

/-- A class derived from `TextLabelBase<T>`: it has the base's data members. -/
class DerivedLabel (L : Type) where
  base : L → TextLabelBase

/-- The method `streamInForClient(player, isPlayerTextLabel)`. -/
def streamInForClient {L : Type} [DerivedLabel L] (w : World L) (player : IPlayer)
    (isPlayerTextLabel : Bool) : World L :=
  let showTextLabelRPC : PlayerShowTextLabel :=
    { PlayerTextLabel := isPlayerTextLabel
      TextLabelID := (DerivedLabel.base w.self).poolID
      Col := (DerivedLabel.base w.self).colour
      Position := (DerivedLabel.base w.self).pos
      DrawDistance := (DerivedLabel.base w.self).drawDist
      LOS := (DerivedLabel.base w.self).testLOS
      PlayerAttachID := (DerivedLabel.base w.self).attachmentData.playerID
      VehicleAttachID := (DerivedLabel.base w.self).attachmentData.vehicleID
      Text := (DerivedLabel.base w.self).text }
  { w with wire := player.sendRPC (RPC.showTextLabel showTextLabelRPC) w.wire }

/-- The method `streamOutForClient(player, isPlayerTextLabel)`. -/
def streamOutForClient {L : Type} [DerivedLabel L] (w : World L) (player : IPlayer)
    (isPlayerTextLabel : Bool) : World L :=
  let hideTextLabelRPC : PlayerHideTextLabel :=
    { PlayerTextLabel := isPlayerTextLabel
      TextLabelID := (DerivedLabel.base w.self).poolID }
  { w with wire := player.sendRPC (RPC.hideTextLabel hideTextLabelRPC) w.wire }

/-! ## `TextLabel` -/

/-- The global label: the base members, a virtual world and the visibility tracker. -/
structure TextLabel extends TextLabelBase where
  virtualWorld : Int
  streamedFor_ : UniqueIDArray
  deriving DecidableEq, Repr

instance : DerivedLabel TextLabel := ⟨TextLabel.toTextLabelBase⟩

namespace TextLabel

/-- The override `restream()`: every tracked player is streamed out, then in. -/
def restream (w : World TextLabel) : World TextLabel :=
  w.self.streamedFor_.entries.foldl
    (fun w player => streamInForClient (streamOutForClient w player false) player false) w

/-- The method `isStreamedInForPlayer(player)`. -/
def isStreamedInForPlayer (w : World TextLabel) (player : IPlayer) : Bool :=
  w.self.streamedFor_.valid player.getID

/-- The method `streamInForPlayer(player)`. -/
def streamInForPlayer (w : World TextLabel) (player : IPlayer) : World TextLabel :=
  streamInForClient
    { w with self := { w.self with streamedFor_ := w.self.streamedFor_.add player.getID player } }
    player false

/-- The method `streamOutForPlayer(player)`. -/
def streamOutForPlayer (w : World TextLabel) (player : IPlayer) : World TextLabel :=
  streamOutForClient
    { w with self := { w.self with streamedFor_ := w.self.streamedFor_.remove player.getID player } }
    player false

/-- The method `getID()`. -/
def getID (w : World TextLabel) : Int := w.self.poolID

/-- The method `getPosition()`. -/
def getPosition (w : World TextLabel) : Vector3 := w.self.pos

/-- The method `setPosition(position)`. -/
def setPosition (w : World TextLabel) (position : Vector3) : World TextLabel :=
  restream { w with self := { w.self with pos := position } }

/-- The method `setText(txt)`. -/
def setText (w : World TextLabel) (txt : String) : World TextLabel :=
  restream { w with self := { w.self with text := txt } }

/-- The method `getText()`. -/
def getText (w : World TextLabel) : String := w.self.text

/-- The method `setColour(col)`. -/
def setColour (w : World TextLabel) (col : Colour) : World TextLabel :=
  restream { w with self := { w.self with colour := col } }

/-- The method `getColour()`. -/
def getColour (w : World TextLabel) : Colour := w.self.colour

/-- The method `setDrawDistance(dist)`. -/
def setDrawDistance (w : World TextLabel) (dist : float) : World TextLabel :=
  restream { w with self := { w.self with drawDist := dist } }

/-- The method `getDrawDistance()`. -/
def getDrawDistance (w : World TextLabel) : float := w.self.drawDist

/-- The method `attachToPlayer(player, offset)`. -/
def attachToPlayer (w : World TextLabel) (player : IPlayer) (offset : Vector3) : World TextLabel :=
  restream { w with self := { w.self with
    pos := offset
    attachmentData := { w.self.attachmentData with playerID := player.getID } } }

/-- The method `attachToVehicle(vehicle, offset)`. -/
def attachToVehicle (w : World TextLabel) (vehicle : IVehicle) (offset : Vector3) :
    World TextLabel :=
  restream { w with self := { w.self with
    pos := offset
    attachmentData := { w.self.attachmentData with vehicleID := vehicle.getID } } }

/-- The method `getAttachmentData()`. -/
def getAttachmentData (w : World TextLabel) : TextLabelAttachmentData := w.self.attachmentData

/-- The method `detachFromPlayer(position)`. -/
def detachFromPlayer (w : World TextLabel) (position : Vector3) : World TextLabel :=
  restream { w with self := { w.self with
    pos := position
    attachmentData := { w.self.attachmentData with playerID := INVALID_PLAYER_ID } } }

/-- The method `detachFromVehicle(position)`. -/
def detachFromVehicle (w : World TextLabel) (position : Vector3) : World TextLabel :=
  restream { w with self := { w.self with
    pos := position
    attachmentData := { w.self.attachmentData with vehicleID := INVALID_VEHICLE_ID } } }

/-- The method `getVirtualWorld()`. -/
def getVirtualWorld (w : World TextLabel) : Int := w.self.virtualWorld

/-- The method `setVirtualWorld(vw)`. -/
def setVirtualWorld (w : World TextLabel) (vw : Int) : World TextLabel :=
  restream { w with self := { w.self with virtualWorld := vw } }

/-- The destructor `~TextLabel()`: every tracked player is streamed out. -/
def destructor (w : World TextLabel) : World TextLabel :=
  w.self.streamedFor_.entries.foldl (fun w player => streamOutForClient w player false) w

end TextLabel

/-! ## `PlayerTextLabel` -/

/-- The player-scoped label: the base members and the owner pointer, null by default. -/
structure PlayerTextLabel extends TextLabelBase where
  player : Option IPlayer := none
  deriving DecidableEq, Repr

instance : DerivedLabel PlayerTextLabel := ⟨PlayerTextLabel.toTextLabelBase⟩

namespace PlayerTextLabel

/-- The override `restream()`: `*player` is streamed out, then in. The pointer is dereferenced
without a test, so a null `player` gives `none`. -/
def restream (w : World PlayerTextLabel) : Option (World PlayerTextLabel) :=
  match w.self.player with
  | none => none
  | some player => some (streamInForClient (streamOutForClient w player true) player true)

/-- The method `getPosition()`. -/
def getPosition (w : World PlayerTextLabel) : Vector3 := w.self.pos

/-- The method `setPosition(position)`. -/
def setPosition (w : World PlayerTextLabel) (position : Vector3) :
    Option (World PlayerTextLabel) :=
  restream { w with self := { w.self with pos := position } }

/-- The method `setText(txt)`. -/
def setText (w : World PlayerTextLabel) (txt : String) : Option (World PlayerTextLabel) :=
  restream { w with self := { w.self with text := txt } }

/-- The method `getText()`. -/
def getText (w : World PlayerTextLabel) : String := w.self.text

/-- The method `setColour(col)`. -/
def setColour (w : World PlayerTextLabel) (col : Colour) : Option (World PlayerTextLabel) :=
  restream { w with self := { w.self with colour := col } }

/-- The method `getColour()`. -/
def getColour (w : World PlayerTextLabel) : Colour := w.self.colour

/-- The method `setDrawDistance(dist)`. -/
def setDrawDistance (w : World PlayerTextLabel) (dist : float) :
    Option (World PlayerTextLabel) :=
  restream { w with self := { w.self with drawDist := dist } }

/-- The method `getDrawDistance()`. -/
def getDrawDistance (w : World PlayerTextLabel) : float := w.self.drawDist

/-- The method `attachToPlayer(player, offset)`. -/
def attachToPlayer (w : World PlayerTextLabel) (player : IPlayer) (offset : Vector3) :
    Option (World PlayerTextLabel) :=
  restream { w with self := { w.self with
    pos := offset
    attachmentData := { w.self.attachmentData with playerID := player.getID } } }

/-- The method `attachToVehicle(vehicle, offset)`. -/
def attachToVehicle (w : World PlayerTextLabel) (vehicle : IVehicle) (offset : Vector3) :
    Option (World PlayerTextLabel) :=
  restream { w with self := { w.self with
    pos := offset
    attachmentData := { w.self.attachmentData with vehicleID := vehicle.getID } } }

/-- The method `getAttachmentData()`. -/
def getAttachmentData (w : World PlayerTextLabel) : TextLabelAttachmentData :=
  w.self.attachmentData

/-- The method `detachFromPlayer(position)`. -/
def detachFromPlayer (w : World PlayerTextLabel) (position : Vector3) :
    Option (World PlayerTextLabel) :=
  restream { w with self := { w.self with
    pos := position
    attachmentData := { w.self.attachmentData with playerID := INVALID_PLAYER_ID } } }

/-- The method `detachFromVehicle(position)`. -/
def detachFromVehicle (w : World PlayerTextLabel) (position : Vector3) :
    Option (World PlayerTextLabel) :=
  restream { w with self := { w.self with
    pos := position
    attachmentData := { w.self.attachmentData with vehicleID := INVALID_VEHICLE_ID } } }

/-- The method `getVirtualWorld()`. -/
def getVirtualWorld (_w : World PlayerTextLabel) : Int := 0

/-- The method `setVirtualWorld(vw)`, which does nothing. -/
def setVirtualWorld (w : World PlayerTextLabel) (_vw : Int) : World PlayerTextLabel := w

/-- The destructor `~PlayerTextLabel()`: a non-null owner is streamed out, with the kind flag the
source passes there. -/
def destructor (w : World PlayerTextLabel) : World PlayerTextLabel :=
  match w.self.player with
  | some player => streamOutForClient w player false
  | none => w

end PlayerTextLabel

/-! ## Call sequences on a `TextLabel` -/

/-- One call of the streaming methods or mutating setters of a `TextLabel`. -/
inductive Call where
  | streamInForPlayer (player : IPlayer)
  | streamOutForPlayer (player : IPlayer)
  | restream
  | setPosition (position : Vector3)
  | setText (txt : String)
  | setColour (col : Colour)
  | setDrawDistance (dist : float)
  | setVirtualWorld (vw : Int)
  | attachToPlayer (player : IPlayer) (offset : Vector3)
  | attachToVehicle (vehicle : IVehicle) (offset : Vector3)
  | detachFromPlayer (position : Vector3)
  | detachFromVehicle (position : Vector3)
  deriving DecidableEq, Repr

/-- Performing one call. -/
def Call.perform (w : World TextLabel) : Call → World TextLabel
  | Call.streamInForPlayer player => TextLabel.streamInForPlayer w player
  | Call.streamOutForPlayer player => TextLabel.streamOutForPlayer w player
  | Call.restream => TextLabel.restream w
  | Call.setPosition position => TextLabel.setPosition w position
  | Call.setText txt => TextLabel.setText w txt
  | Call.setColour col => TextLabel.setColour w col
  | Call.setDrawDistance dist => TextLabel.setDrawDistance w dist
  | Call.setVirtualWorld vw => TextLabel.setVirtualWorld w vw
  | Call.attachToPlayer player offset => TextLabel.attachToPlayer w player offset
  | Call.attachToVehicle vehicle offset => TextLabel.attachToVehicle w vehicle offset
  | Call.detachFromPlayer position => TextLabel.detachFromPlayer w position
  | Call.detachFromVehicle position => TextLabel.detachFromVehicle w position

/-- Performing a sequence of calls, first to last. -/
def performAll (w : World TextLabel) (calls : List Call) : World TextLabel :=
  calls.foldl Call.perform w

/-- The label of the claims' starting point: nobody tracked, nothing sent yet. -/
def freshWorld (l : TextLabel) : World TextLabel :=
  { self := { l with streamedFor_ := UniqueIDArray.empty }, wire := [] }

/-- A creation RPC for label `labelID` was sent to player `P` and no destruction RPC for that
label was sent to `P` after it. -/
def CreatedNotDestroyed (wire : List Sent) (labelID : Int) (P : Int) : Prop :=
  ∃ pre m post, wire = pre ++ Sent.mk P (RPC.showTextLabel m) :: post ∧
    m.TextLabelID = labelID ∧
    ∀ h : PlayerHideTextLabel, h.TextLabelID = labelID →
      Sent.mk P (RPC.hideTextLabel h) ∉ post

/-- The RPCs of `wire` that went to player `P`, in order. -/
def sentTo (wire : List Sent) (P : Int) : List RPC :=
  (wire.filter (fun s => decide (s.player = P))).map Sent.rpc

/-- The RPCs a call sent: what `after.wire` holds beyond `before.wire`. -/
def newlySent {L : Type} (before after : World L) : List Sent :=
  after.wire.drop before.wire.length

/-- The creation RPC `streamInForClient` builds from the base members `b` with kind flag `k`. -/
def showOf (b : TextLabelBase) (k : Bool) : PlayerShowTextLabel :=
  { PlayerTextLabel := k
    TextLabelID := b.poolID
    Col := b.colour
    Position := b.pos
    DrawDistance := b.drawDist
    LOS := b.testLOS
    PlayerAttachID := b.attachmentData.playerID
    VehicleAttachID := b.attachmentData.vehicleID
    Text := b.text }

/-- The destruction RPC `streamOutForClient` builds from the base members `b` with kind flag `k`. -/
def hideOf (b : TextLabelBase) (k : Bool) : PlayerHideTextLabel :=
  { PlayerTextLabel := k, TextLabelID := b.poolID }

/-- The two RPCs one round of the `restream()` loop sends to the player with ID `i`. -/
def restreamPair (b : TextLabelBase) (i : Int) : List Sent :=
  [Sent.mk i (RPC.hideTextLabel (hideOf b false)), Sent.mk i (RPC.showTextLabel (showOf b false))]

/-- How one RPC on the wire changes whether the client of player `P` holds the label `labelID`:
a creation RPC for that label to `P` makes it held, a destruction RPC for it to `P` makes it not
held, anything else leaves it as it was. -/
def holdStep (labelID : Int) (P : Int) (held : Bool) (s : Sent) : Bool :=
  match s.rpc with
  | RPC.showTextLabel m => if s.player = P ∧ m.TextLabelID = labelID then true else held
  | RPC.hideTextLabel h => if s.player = P ∧ h.TextLabelID = labelID then false else held

/-- Whether, going through `wire` in order, the client of player `P` ends up holding the label
`labelID`. -/
def clientHolds (wire : List Sent) (labelID : Int) (P : Int) : Bool :=
  wire.foldl (holdStep labelID P) false

/-- A setter call took `before` to `after` by storing (giving the label `stored`) and then
restreaming: the label afterwards is `stored`, the RPCs the call sent are exactly those
`restream()` sends on `stored`, and each creation RPC among them is built from `stored`. -/
def StoresThenRestreams (before after : World TextLabel) (stored : TextLabel) : Prop :=
  after.self = stored ∧
  after.wire = before.wire ++ newlySent before after ∧
  newlySent before after =
    newlySent (World.mk stored before.wire) (TextLabel.restream (World.mk stored before.wire)) ∧
  ∀ s ∈ newlySent before after, ∀ m : PlayerShowTextLabel,
    s.rpc = RPC.showTextLabel m → m = showOf stored.toTextLabelBase false

/-- The tracker of `w` agrees with what the clients hold according to the wire, and the label
still has pool ID `labelID`. -/
def Mirrors (labelID : Int) (w : World TextLabel) : Prop :=
  w.self.poolID = labelID ∧
  ∀ P : Int, w.self.streamedFor_.valid P = clientHolds w.wire labelID P

/-! ## Attach and detach sequences -/

/-- One call of the four attachment methods. -/
inductive AttachCall where
  | attachToPlayer (player : IPlayer) (offset : Vector3)
  | attachToVehicle (vehicle : IVehicle) (offset : Vector3)
  | detachFromPlayer (position : Vector3)
  | detachFromVehicle (position : Vector3)
  deriving DecidableEq, Repr

/-- Performing one attachment call on a global label. -/
def AttachCall.perform (w : World TextLabel) : AttachCall → World TextLabel
  | AttachCall.attachToPlayer player offset => TextLabel.attachToPlayer w player offset
  | AttachCall.attachToVehicle vehicle offset => TextLabel.attachToVehicle w vehicle offset
  | AttachCall.detachFromPlayer position => TextLabel.detachFromPlayer w position
  | AttachCall.detachFromVehicle position => TextLabel.detachFromVehicle w position

/-- Performing a sequence of attachment calls on a global label, first to last. -/
def performAttachCalls (w : World TextLabel) (calls : List AttachCall) : World TextLabel :=
  calls.foldl AttachCall.perform w

/-- Performing one attachment call on a player-scoped label. -/
def AttachCall.performScoped (w : World PlayerTextLabel) :
    AttachCall → Option (World PlayerTextLabel)
  | AttachCall.attachToPlayer player offset => PlayerTextLabel.attachToPlayer w player offset
  | AttachCall.attachToVehicle vehicle offset => PlayerTextLabel.attachToVehicle w vehicle offset
  | AttachCall.detachFromPlayer position => PlayerTextLabel.detachFromPlayer w position
  | AttachCall.detachFromVehicle position => PlayerTextLabel.detachFromVehicle w position

/-- Performing a sequence of attachment calls on a player-scoped label, first to last; a call
that dereferences a null owner ends the run with `none`. -/
def performScopedAttachCalls (w : World PlayerTextLabel) :
    List AttachCall → Option (World PlayerTextLabel)
  | [] => some w
  | c :: rest =>
    match AttachCall.performScoped w c with
    | none => none
    | some w2 => performScopedAttachCalls w2 rest

/-- Both hosts are active: neither attachment slot holds its invalid marker. -/
def BothHostsActive (d : TextLabelAttachmentData) : Prop :=
  d.playerID ≠ INVALID_PLAYER_ID ∧ d.vehicleID ≠ INVALID_VEHICLE_ID

instance (d : TextLabelAttachmentData) : Decidable (BothHostsActive d) := by
  unfold BothHostsActive; infer_instance

/-- A property of the call sequence alone: `attachToPlayer` is never called between an
`attachToVehicle` and the next `detachFromVehicle`, and `attachToVehicle` never between an
`attachToPlayer` and the next `detachFromPlayer`. The flags say whether an attach to the player
host, or to the vehicle host, is still awaiting its detach. -/
def detachesBeforeSwitching : Bool → Bool → List AttachCall → Bool
  | _, _, [] => true
  | _, toVehicle, AttachCall.attachToPlayer _ _ :: rest =>
    !toVehicle && detachesBeforeSwitching true toVehicle rest
  | toPlayer, _, AttachCall.attachToVehicle _ _ :: rest =>
    !toPlayer && detachesBeforeSwitching toPlayer true rest
  | _, toVehicle, AttachCall.detachFromPlayer _ :: rest =>
    detachesBeforeSwitching false toVehicle rest
  | toPlayer, _, AttachCall.detachFromVehicle _ :: rest =>
    detachesBeforeSwitching toPlayer false rest

/-! ## Sample objects -/

/-- Base members of a sample label with pool ID 5. -/
def sampleBase : TextLabelBase :=
  { poolID := 5
    text := "hello"
    pos := Vector3.mk 1 2 3
    colour := Colour.mk 255 0 0 255
    drawDist := 50
    attachmentData := { playerID := INVALID_PLAYER_ID, vehicleID := INVALID_VEHICLE_ID }
    testLOS := true }

/-- A sample global label that players 1 and 4 are tracked for. -/
def sampleLabel : TextLabel :=
  { toTextLabelBase := sampleBase
    virtualWorld := 0
    streamedFor_ := UniqueIDArray.mk [1, 4] (by decide) }

/-- The sample global label with nothing sent yet. -/
def sampleWorld : World TextLabel := { self := sampleLabel, wire := [] }

/-- A sample player-scoped label owned by player 2. -/
def sampleOwnedLabel : PlayerTextLabel :=
  { toTextLabelBase := sampleBase, player := some (IPlayer.mk 2) }

/-- A sample player-scoped label whose owner pointer still has its default, null. -/
def sampleOwnerlessLabel : PlayerTextLabel :=
  { toTextLabelBase := sampleBase }

/-- The sample player-scoped label, owner null, with nothing sent yet. -/
def sampleOwnerlessWorld : World PlayerTextLabel := { self := sampleOwnerlessLabel, wire := [] }

/-- The sample player-scoped label, owned by player 2, with nothing sent yet. -/
def sampleOwnedWorld : World PlayerTextLabel := { self := sampleOwnedLabel, wire := [] }

/-! ## The Pawn component's cached sibling references -/

/-- A component pointer: `none` is `nullptr`, `some a` the object at address `a`. -/
abbrev ComponentPtr := Option Nat

/-- The interfaces `onInit` queries for. -/
inductive ComponentKind where
  | actors | checkpoints | classes | console | databases | dialogs | gangzones | menus
  | objects | pickups | textdraws | textlabels | timers | vars | vehicles
  deriving DecidableEq, Repr

/-- The component list handed to `onInit`: what `queryComponent<I>()` returns for each
interface `I`, null when no such component is loaded. -/
structure IComponentList where
  queryComponent : ComponentKind → ComponentPtr

/-- The sibling references `PawnManager` caches (its other members play no part in `onInit`'s
assignments or in `onFree`). -/
structure PawnManager where
  actors : ComponentPtr := none
  checkpoints : ComponentPtr := none
  classes : ComponentPtr := none
  console : ComponentPtr := none
  databases : ComponentPtr := none
  dialogs : ComponentPtr := none
  gangzones : ComponentPtr := none
  menus : ComponentPtr := none
  objects : ComponentPtr := none
  pickups : ComponentPtr := none
  textdraws : ComponentPtr := none
  textlabels : ComponentPtr := none
  timers : ComponentPtr := none
  vars : ComponentPtr := none
  vehicles : ComponentPtr := none
  deriving DecidableEq, Repr

namespace PawnComponent

/-- The assignments of `onInit(components)` to the manager's sibling references. -/
def onInit (mgr : PawnManager) (components : IComponentList) : PawnManager :=
  { mgr with
    actors := components.queryComponent ComponentKind.actors
    checkpoints := components.queryComponent ComponentKind.checkpoints
    classes := components.queryComponent ComponentKind.classes
    console := components.queryComponent ComponentKind.console
    databases := components.queryComponent ComponentKind.databases
    dialogs := components.queryComponent ComponentKind.dialogs
    gangzones := components.queryComponent ComponentKind.gangzones
    menus := components.queryComponent ComponentKind.menus
    objects := components.queryComponent ComponentKind.objects
    pickups := components.queryComponent ComponentKind.pickups
    textdraws := components.queryComponent ComponentKind.textdraws
    textlabels := components.queryComponent ComponentKind.textlabels
    timers := components.queryComponent ComponentKind.timers
    vars := components.queryComponent ComponentKind.vars
    vehicles := components.queryComponent ComponentKind.vehicles }

/-- The local helper `COMPONENT_UNLOADED(var)`: `if (component == var) var = nullptr;`,
returning the new value of `var`. -/
def COMPONENT_UNLOADED (component : ComponentPtr) (var : ComponentPtr) : ComponentPtr :=
  if component = var then none else var

/-- The method `onFree(component)`: the fourteen `COMPONENT_UNLOADED` lines, in source order. -/
def onFree (mgr : PawnManager) (component : ComponentPtr) : PawnManager :=
  let mgr := { mgr with console := COMPONENT_UNLOADED component mgr.console }
  let mgr := { mgr with checkpoints := COMPONENT_UNLOADED component mgr.checkpoints }
  let mgr := { mgr with classes := COMPONENT_UNLOADED component mgr.classes }
  let mgr := { mgr with databases := COMPONENT_UNLOADED component mgr.databases }
  let mgr := { mgr with dialogs := COMPONENT_UNLOADED component mgr.dialogs }
  let mgr := { mgr with gangzones := COMPONENT_UNLOADED component mgr.gangzones }
  let mgr := { mgr with menus := COMPONENT_UNLOADED component mgr.menus }
  let mgr := { mgr with objects := COMPONENT_UNLOADED component mgr.objects }
  let mgr := { mgr with pickups := COMPONENT_UNLOADED component mgr.pickups }
  let mgr := { mgr with textdraws := COMPONENT_UNLOADED component mgr.textdraws }
  let mgr := { mgr with textlabels := COMPONENT_UNLOADED component mgr.textlabels }
  let mgr := { mgr with timers := COMPONENT_UNLOADED component mgr.timers }
  let mgr := { mgr with vars := COMPONENT_UNLOADED component mgr.vars }
  let mgr := { mgr with vehicles := COMPONENT_UNLOADED component mgr.vehicles }
  mgr

end PawnComponent

/-- A sample component list: the actors component lives at address 100, the console component
at address 200, the vehicles component at address 300, nothing else is loaded. -/
def sampleComponents : IComponentList :=
  { queryComponent := fun k =>
      match k with
      | ComponentKind.actors => some 100
      | ComponentKind.console => some 200
      | ComponentKind.vehicles => some 300
      | _ => none }

/-! ## Lemmas: what the streaming loops send -/

theorem streamInForClient_eq {L : Type} [DerivedLabel L] (w : World L) (player : IPlayer)
    (k : Bool) :
    streamInForClient w player k =
      { self := w.self
        wire := w.wire ++
          [Sent.mk player.getID (RPC.showTextLabel (showOf (DerivedLabel.base w.self) k))] } :=
  rfl

theorem streamOutForClient_eq {L : Type} [DerivedLabel L] (w : World L) (player : IPlayer)
    (k : Bool) :
    streamOutForClient w player k =
      { self := w.self
        wire := w.wire ++
          [Sent.mk player.getID (RPC.hideTextLabel (hideOf (DerivedLabel.base w.self) k))] } :=
  rfl

theorem restream_loop (ids : List Int) (w : World TextLabel) :
    (ids.map IPlayer.mk).foldl
        (fun w player => streamInForClient (streamOutForClient w player false) player false) w =
      { self := w.self
        wire := w.wire ++ ids.flatMap (restreamPair w.self.toTextLabelBase) } := by
  induction ids generalizing w with
  | nil => simp
  | cons i rest ih =>
    simp only [List.map_cons, List.foldl_cons, List.flatMap_cons]
    rw [ih]
    simp [streamInForClient_eq, streamOutForClient_eq, restreamPair, IPlayer.getID,
      DerivedLabel.base]

theorem TextLabel.restream_eq (w : World TextLabel) :
    TextLabel.restream w =
      { self := w.self
        wire := w.wire ++
          w.self.streamedFor_.ids.flatMap (restreamPair w.self.toTextLabelBase) } := by
  unfold TextLabel.restream UniqueIDArray.entries
  exact restream_loop _ w

theorem destructor_loop (ids : List Int) (w : World TextLabel) :
    (ids.map IPlayer.mk).foldl (fun w player => streamOutForClient w player false) w =
      { self := w.self
        wire := w.wire ++
          ids.map (fun i => Sent.mk i (RPC.hideTextLabel (hideOf w.self.toTextLabelBase false))) } := by
  induction ids generalizing w with
  | nil => simp
  | cons i rest ih =>
    simp only [List.map_cons, List.foldl_cons]
    rw [ih]
    simp [streamOutForClient_eq, IPlayer.getID, DerivedLabel.base]

theorem TextLabel.destructor_eq (w : World TextLabel) :
    TextLabel.destructor w =
      { self := w.self
        wire := w.wire ++ w.self.streamedFor_.ids.map
          (fun i => Sent.mk i (RPC.hideTextLabel (hideOf w.self.toTextLabelBase false))) } := by
  unfold TextLabel.destructor UniqueIDArray.entries
  exact destructor_loop _ w

theorem newlySent_of_append {L : Type} (w w2 : World L) (out : List Sent)
    (h : w2.wire = w.wire ++ out) : newlySent w w2 = out := by
  simp [newlySent, h]

theorem sentTo_append (a b : List Sent) (P : Int) :
    sentTo (a ++ b) P = sentTo a P ++ sentTo b P := by
  simp [sentTo]

theorem sentTo_pairs_of_not_mem (b : TextLabelBase) (ids : List Int) (P : Int) (h : P ∉ ids) :
    sentTo (ids.flatMap (restreamPair b)) P = [] := by
  induction ids with
  | nil => simp [sentTo]
  | cons i rest ih =>
    have hi : ¬ i = P := fun e => h (e ▸ List.mem_cons_self _ _)
    have hr : P ∉ rest := fun m => h (List.mem_cons_of_mem _ m)
    rw [List.flatMap_cons, sentTo_append, ih hr]
    simp [sentTo, restreamPair, hi]

theorem sentTo_pairs_of_mem (b : TextLabelBase) (ids : List Int) (P : Int) (hn : ids.Nodup)
    (h : P ∈ ids) :
    sentTo (ids.flatMap (restreamPair b)) P =
      [RPC.hideTextLabel (hideOf b false), RPC.showTextLabel (showOf b false)] := by
  induction ids with
  | nil => simp at h
  | cons i rest ih =>
    rw [List.nodup_cons] at hn
    rw [List.flatMap_cons, sentTo_append]
    by_cases hi : i = P
    · subst hi
      rw [sentTo_pairs_of_not_mem b rest i hn.1]
      simp [sentTo, restreamPair]
    · have hr : P ∈ rest := by
        rcases List.mem_cons.mp h with e | m
        · exact absurd e.symm hi
        · exact m
      rw [ih hn.2 hr]
      simp [sentTo, restreamPair, hi]

theorem pairs_adjacent (b : TextLabelBase) (ids : List Int) (P : Int) (h : P ∈ ids) :
    ∃ pre post, ids.flatMap (restreamPair b) = pre ++ restreamPair b P ++ post := by
  obtain ⟨s, t, rfl⟩ := List.append_of_mem h
  exact ⟨s.flatMap (restreamPair b), t.flatMap (restreamPair b), by simp⟩

theorem sentTo_hides_of_not_mem (m : PlayerHideTextLabel) (ids : List Int) (P : Int)
    (h : P ∉ ids) :
    sentTo (ids.map (fun i => Sent.mk i (RPC.hideTextLabel m))) P = [] := by
  induction ids with
  | nil => simp [sentTo]
  | cons i rest ih =>
    have hi : ¬ i = P := fun e => h (e ▸ List.mem_cons_self _ _)
    have hr : P ∉ rest := fun m => h (List.mem_cons_of_mem _ m)
    have ih2 := ih hr
    simp only [sentTo] at ih2 ⊢
    simp [hi, ih2]

theorem sentTo_hides_of_mem (m : PlayerHideTextLabel) (ids : List Int) (P : Int)
    (hn : ids.Nodup) (h : P ∈ ids) :
    sentTo (ids.map (fun i => Sent.mk i (RPC.hideTextLabel m))) P = [RPC.hideTextLabel m] := by
  induction ids with
  | nil => simp at h
  | cons i rest ih =>
    rw [List.nodup_cons] at hn
    by_cases hi : i = P
    · subst hi
      have h0 := sentTo_hides_of_not_mem m rest i hn.1
      simp only [sentTo] at h0 ⊢
      simp [h0]
    · have hr : P ∈ rest := by
        rcases List.mem_cons.mp h with e | m
        · exact absurd e.symm hi
        · exact m
      have h1 := ih hn.2 hr
      simp only [sentTo] at h1 ⊢
      simp [hi, h1]

/-! ## Lemmas: the tracker -/

theorem UniqueIDArray.eq_of_ids {a b : UniqueIDArray} (h : a.ids = b.ids) : a = b := by
  cases a; cases b; cases h; rfl

theorem UniqueIDArray.add_ids (arr : UniqueIDArray) (i : Int) (d : IPlayer) :
    (arr.add i d).ids = if i ∈ arr.ids then arr.ids else arr.ids ++ [i] := by
  unfold UniqueIDArray.add
  split <;> simp_all

theorem UniqueIDArray.remove_ids (arr : UniqueIDArray) (i : Int) (d : IPlayer) :
    (arr.remove i d).ids = arr.ids.erase i := rfl

theorem UniqueIDArray.valid_iff (arr : UniqueIDArray) (i : Int) :
    arr.valid i = true ↔ i ∈ arr.ids := by
  simp [UniqueIDArray.valid]

theorem UniqueIDArray.valid_add (arr : UniqueIDArray) (i j : Int) (d : IPlayer) :
    (arr.add i d).valid j = (decide (j = i) || arr.valid j) := by
  rw [Bool.eq_iff_iff]
  simp only [UniqueIDArray.valid_iff, UniqueIDArray.add_ids, Bool.or_eq_true, decide_eq_true_eq]
  split
  · constructor
    · exact Or.inr
    · rintro (e | m)
      · subst e; assumption
      · exact m
  · simp [or_comm]

theorem UniqueIDArray.valid_remove (arr : UniqueIDArray) (i j : Int) (d : IPlayer) :
    (arr.remove i d).valid j = (!decide (j = i) && arr.valid j) := by
  rw [Bool.eq_iff_iff]
  simp only [UniqueIDArray.valid_iff, UniqueIDArray.remove_ids, Bool.and_eq_true,
    Bool.not_eq_true', decide_eq_false_iff_not]
  exact arr.nodup.mem_erase_iff

theorem UniqueIDArray.remove_add_of_not_valid (arr : UniqueIDArray) (i : Int) (d : IPlayer)
    (h : arr.valid i = false) : (arr.add i d).remove i d = arr := by
  apply UniqueIDArray.eq_of_ids
  have hm : i ∉ arr.ids := by
    intro m
    rw [(UniqueIDArray.valid_iff arr i).mpr m] at h
    exact Bool.noConfusion h
  rw [UniqueIDArray.remove_ids, UniqueIDArray.add_ids, if_neg hm,
    List.erase_append_right _ hm]
  simp

/-! ## Streaming one player in or out -/

/-- C7: `streamInForClient(P, k)` leaves the label as it was and sends exactly one RPC, a creation
RPC addressed to `P`, whose fields are the kind flag `k` and the label's current pool ID, colour,
position, draw distance, line-of-sight flag, attachment player and vehicle IDs and text; no
other player is sent anything. -/
theorem streamInForClient_sends_current_state {L : Type} [DerivedLabel L] (w : World L)
    (P : IPlayer) (k : Bool) :
    (streamInForClient w P k).self = w.self ∧
    (∃ m : PlayerShowTextLabel,
      (streamInForClient w P k).wire = w.wire ++ [Sent.mk P.getID (RPC.showTextLabel m)] ∧
      newlySent w (streamInForClient w P k) = [Sent.mk P.getID (RPC.showTextLabel m)] ∧
      m.PlayerTextLabel = k ∧
      m.TextLabelID = (DerivedLabel.base w.self).poolID ∧
      m.Col = (DerivedLabel.base w.self).colour ∧
      m.Position = (DerivedLabel.base w.self).pos ∧
      m.DrawDistance = (DerivedLabel.base w.self).drawDist ∧
      m.LOS = (DerivedLabel.base w.self).testLOS ∧
      m.PlayerAttachID = (DerivedLabel.base w.self).attachmentData.playerID ∧
      m.VehicleAttachID = (DerivedLabel.base w.self).attachmentData.vehicleID ∧
      m.Text = (DerivedLabel.base w.self).text) ∧
    (∀ Q : Int, Q ≠ P.getID → sentTo (newlySent w (streamInForClient w P k)) Q = []) := by
  have hw := streamInForClient_eq w P k
  have hn := newlySent_of_append w (streamInForClient w P k) _ (by rw [hw])
  refine ⟨rfl, ⟨showOf (DerivedLabel.base w.self) k, by rw [hw], hn,
    rfl, rfl, rfl, rfl, rfl, rfl, rfl, rfl, rfl⟩, ?_⟩
  intro Q hQ
  rw [hn]
  simp [sentTo, Ne.symm hQ]

/-- Witness for C7 on the sample label: streaming in for player 2 sends player 1 nothing and
leaves the label as it was. -/
theorem streamInForClient_sends_current_state_witness :
    (1 : Int) ≠ (IPlayer.mk 2).getID ∧
    sentTo (newlySent sampleWorld (streamInForClient sampleWorld (IPlayer.mk 2) false)) 1 = [] ∧
    (streamInForClient sampleWorld (IPlayer.mk 2) false).self = sampleLabel :=
  ⟨by decide,
   (streamInForClient_sends_current_state sampleWorld (IPlayer.mk 2) false).2.2 1 (by decide),
   (streamInForClient_sends_current_state sampleWorld (IPlayer.mk 2) false).1⟩

/-- C8: for a player `P` the tracker does not hold, `streamInForPlayer(P)` sends exactly one RPC,
a creation RPC to `P`, and makes `isStreamedInForPlayer(P)` true; `streamOutForPlayer(P)` after it
sends exactly one RPC, a destruction RPC to `P`, and makes `isStreamedInForPlayer(P)` false; the
tracker (indeed the whole label) is then as it was at the start, and for any other player neither
call changes `isStreamedInForPlayer` or sends anything. -/
theorem streamIn_then_streamOut (w : World TextLabel) (P : IPlayer)
    (hP : TextLabel.isStreamedInForPlayer w P = false) :
    newlySent w (TextLabel.streamInForPlayer w P) =
        [Sent.mk P.getID (RPC.showTextLabel (showOf w.self.toTextLabelBase false))] ∧
    TextLabel.isStreamedInForPlayer (TextLabel.streamInForPlayer w P) P = true ∧
    newlySent (TextLabel.streamInForPlayer w P)
        (TextLabel.streamOutForPlayer (TextLabel.streamInForPlayer w P) P) =
        [Sent.mk P.getID (RPC.hideTextLabel (hideOf w.self.toTextLabelBase false))] ∧
    TextLabel.isStreamedInForPlayer
        (TextLabel.streamOutForPlayer (TextLabel.streamInForPlayer w P) P) P = false ∧
    (TextLabel.streamOutForPlayer (TextLabel.streamInForPlayer w P) P).self.streamedFor_ =
        w.self.streamedFor_ ∧
    (TextLabel.streamOutForPlayer (TextLabel.streamInForPlayer w P) P).self = w.self ∧
    (∀ Q : IPlayer, Q.getID ≠ P.getID →
      TextLabel.isStreamedInForPlayer (TextLabel.streamInForPlayer w P) Q =
          TextLabel.isStreamedInForPlayer w Q ∧
      TextLabel.isStreamedInForPlayer
          (TextLabel.streamOutForPlayer (TextLabel.streamInForPlayer w P) P) Q =
          TextLabel.isStreamedInForPlayer w Q ∧
      sentTo (newlySent w (TextLabel.streamInForPlayer w P)) Q.getID = [] ∧
      sentTo (newlySent (TextLabel.streamInForPlayer w P)
          (TextLabel.streamOutForPlayer (TextLabel.streamInForPlayer w P) P)) Q.getID = []) := by
  have hin := streamInForClient_eq
    ({ w with self := { w.self with streamedFor_ := w.self.streamedFor_.add P.getID P } })
    P false
  have hout := streamOutForClient_eq
    ({ (TextLabel.streamInForPlayer w P) with self :=
      { (TextLabel.streamInForPlayer w P).self with streamedFor_ :=
        (TextLabel.streamInForPlayer w P).self.streamedFor_.remove P.getID P } })
    P false
  have e1 : newlySent w (TextLabel.streamInForPlayer w P) =
      [Sent.mk P.getID (RPC.showTextLabel (showOf w.self.toTextLabelBase false))] :=
    newlySent_of_append _ _ _ (by rw [TextLabel.streamInForPlayer, hin]; rfl)
  have e2 : newlySent (TextLabel.streamInForPlayer w P)
      (TextLabel.streamOutForPlayer (TextLabel.streamInForPlayer w P) P) =
      [Sent.mk P.getID (RPC.hideTextLabel (hideOf w.self.toTextLabelBase false))] :=
    newlySent_of_append _ _ _ (by rw [TextLabel.streamOutForPlayer, hout]; rfl)
  have t1 : (TextLabel.streamInForPlayer w P).self.streamedFor_ =
      w.self.streamedFor_.add P.getID P := rfl
  have t2 : (TextLabel.streamOutForPlayer (TextLabel.streamInForPlayer w P) P).self.streamedFor_ =
      (w.self.streamedFor_.add P.getID P).remove P.getID P := rfl
  have hP2 : w.self.streamedFor_.valid P.getID = false := hP
  have back := UniqueIDArray.remove_add_of_not_valid w.self.streamedFor_ P.getID P hP2
  refine ⟨e1, ?_, e2, ?_, ?_, ?_, ?_⟩
  · simp [TextLabel.isStreamedInForPlayer, t1, UniqueIDArray.valid_add]
  · simp [TextLabel.isStreamedInForPlayer, t2, UniqueIDArray.valid_remove]
  · rw [t2, back]
  · show ({ (TextLabel.streamInForPlayer w P).self with streamedFor_ :=
        (TextLabel.streamInForPlayer w P).self.streamedFor_.remove P.getID P } : TextLabel) = w.self
    rw [t1, back]
    rfl
  · intro Q hQ
    refine ⟨?_, ?_, ?_, ?_⟩
    · simp [TextLabel.isStreamedInForPlayer, t1, UniqueIDArray.valid_add, hQ]
    · rw [TextLabel.isStreamedInForPlayer, t2, back]
      rfl
    · rw [e1]; simp [sentTo, Ne.symm hQ]
    · rw [e2]; simp [sentTo, Ne.symm hQ]

/-- Witness for C8 on the sample label, which tracks players 1 and 4, with player 2: the
stream-in sends one creation RPC to player 2 and the pair leaves the label as it was. -/
theorem streamIn_then_streamOut_witness :
    TextLabel.isStreamedInForPlayer sampleWorld (IPlayer.mk 2) = false ∧
    newlySent sampleWorld (TextLabel.streamInForPlayer sampleWorld (IPlayer.mk 2)) =
        [Sent.mk 2 (RPC.showTextLabel (showOf sampleBase false))] ∧
    (TextLabel.streamOutForPlayer (TextLabel.streamInForPlayer sampleWorld (IPlayer.mk 2))
        (IPlayer.mk 2)).self = sampleLabel :=
  ⟨by decide,
   (streamIn_then_streamOut sampleWorld (IPlayer.mk 2) (by decide)).1,
   (streamIn_then_streamOut sampleWorld (IPlayer.mk 2) (by decide)).2.2.2.2.2.1⟩

/-! ## Destroying and restreaming a global label -/

/-- C4: the destructor of a `TextLabel` sends each tracked player exactly one RPC, the destruction
RPC carrying the label's pool ID and the global kind (flag false); it sends an untracked player
nothing; none of the RPCs it sends is a creation RPC. -/
theorem destructor_hides_each_tracked_once (w : World TextLabel) :
    (TextLabel.destructor w).wire = w.wire ++ newlySent w (TextLabel.destructor w) ∧
    (∀ P : IPlayer, TextLabel.isStreamedInForPlayer w P = true →
      sentTo (newlySent w (TextLabel.destructor w)) P.getID =
        [RPC.hideTextLabel { PlayerTextLabel := false, TextLabelID := w.self.poolID }]) ∧
    (∀ P : IPlayer, TextLabel.isStreamedInForPlayer w P = false →
      sentTo (newlySent w (TextLabel.destructor w)) P.getID = []) ∧
    (∀ s ∈ newlySent w (TextLabel.destructor w), ∀ m : PlayerShowTextLabel,
      s.rpc ≠ RPC.showTextLabel m) := by
  have hw := TextLabel.destructor_eq w
  have hn := newlySent_of_append w (TextLabel.destructor w) _ (by rw [hw])
  refine ⟨by rw [hn, hw], ?_, ?_, ?_⟩
  · intro P hP
    rw [hn]
    exact sentTo_hides_of_mem _ _ _ w.self.streamedFor_.nodup
      ((UniqueIDArray.valid_iff _ _).mp hP)
  · intro P hP
    rw [hn]
    apply sentTo_hides_of_not_mem
    intro m
    have ht := (UniqueIDArray.valid_iff w.self.streamedFor_ P.getID).mpr m
    have hf : w.self.streamedFor_.valid P.getID = false := hP
    rw [ht] at hf
    exact Bool.noConfusion hf
  · intro s hs m
    rw [hn, List.mem_map] at hs
    obtain ⟨i, _, rfl⟩ := hs
    simp

/-- C5: `restream()` leaves the label, tracker included, as it was; each tracked player is sent
exactly two RPCs, the destruction RPC and then the creation RPC, and the two are adjacent on the
wire, destruction first; an untracked player is sent nothing. -/
theorem restream_out_then_in (w : World TextLabel) :
    (TextLabel.restream w).self = w.self ∧
    (TextLabel.restream w).self.streamedFor_ = w.self.streamedFor_ ∧
    (TextLabel.restream w).wire = w.wire ++ newlySent w (TextLabel.restream w) ∧
    (∀ P : IPlayer, TextLabel.isStreamedInForPlayer w P = true →
      sentTo (newlySent w (TextLabel.restream w)) P.getID =
        [RPC.hideTextLabel (hideOf w.self.toTextLabelBase false),
         RPC.showTextLabel (showOf w.self.toTextLabelBase false)] ∧
      ∃ pre post, newlySent w (TextLabel.restream w) =
        pre ++ [Sent.mk P.getID (RPC.hideTextLabel (hideOf w.self.toTextLabelBase false)),
                Sent.mk P.getID (RPC.showTextLabel (showOf w.self.toTextLabelBase false))]
          ++ post) ∧
    (∀ P : IPlayer, TextLabel.isStreamedInForPlayer w P = false →
      sentTo (newlySent w (TextLabel.restream w)) P.getID = []) := by
  have hw := TextLabel.restream_eq w
  have hn := newlySent_of_append w (TextLabel.restream w) _ (by rw [hw])
  refine ⟨by rw [hw], by rw [hw], by rw [hn, hw], ?_, ?_⟩
  · intro P hP
    have hm := (UniqueIDArray.valid_iff _ _).mp hP
    rw [hn]
    exact ⟨sentTo_pairs_of_mem _ _ _ w.self.streamedFor_.nodup hm, pairs_adjacent _ _ _ hm⟩
  · intro P hP
    rw [hn]
    apply sentTo_pairs_of_not_mem
    intro m
    have ht := (UniqueIDArray.valid_iff w.self.streamedFor_ P.getID).mpr m
    have hf : w.self.streamedFor_.valid P.getID = false := hP
    rw [ht] at hf
    exact Bool.noConfusion hf

/-- Witness for C4 on the sample label: tracked player 1 gets the one destruction RPC,
untracked player 2 gets nothing. -/
theorem destructor_hides_each_tracked_once_witness :
    TextLabel.isStreamedInForPlayer sampleWorld (IPlayer.mk 1) = true ∧
    TextLabel.isStreamedInForPlayer sampleWorld (IPlayer.mk 2) = false ∧
    sentTo (newlySent sampleWorld (TextLabel.destructor sampleWorld)) 1 =
      [RPC.hideTextLabel { PlayerTextLabel := false, TextLabelID := 5 }] ∧
    sentTo (newlySent sampleWorld (TextLabel.destructor sampleWorld)) 2 = [] :=
  ⟨by decide, by decide,
   (destructor_hides_each_tracked_once sampleWorld).2.1 (IPlayer.mk 1) (by decide),
   (destructor_hides_each_tracked_once sampleWorld).2.2.1 (IPlayer.mk 2) (by decide)⟩

/-- Witness for C5 on the sample label: tracked player 4 gets destruction then creation,
untracked player 2 gets nothing. -/
theorem restream_out_then_in_witness :
    TextLabel.isStreamedInForPlayer sampleWorld (IPlayer.mk 4) = true ∧
    TextLabel.isStreamedInForPlayer sampleWorld (IPlayer.mk 2) = false ∧
    sentTo (newlySent sampleWorld (TextLabel.restream sampleWorld)) 4 =
      [RPC.hideTextLabel (hideOf sampleBase false), RPC.showTextLabel (showOf sampleBase false)] ∧
    sentTo (newlySent sampleWorld (TextLabel.restream sampleWorld)) 2 = [] :=
  ⟨by decide, by decide,
   ((restream_out_then_in sampleWorld).2.2.2.1 (IPlayer.mk 4) (by decide)).1,
   (restream_out_then_in sampleWorld).2.2.2.2 (IPlayer.mk 2) (by decide)⟩

/-! ## The mutating setters of a global label -/

theorem restream_shows_current (w : World TextLabel) :
    ∀ s ∈ newlySent w (TextLabel.restream w), ∀ m : PlayerShowTextLabel,
      s.rpc = RPC.showTextLabel m → m = showOf w.self.toTextLabelBase false := by
  have hw := TextLabel.restream_eq w
  have hn := newlySent_of_append w (TextLabel.restream w) _ (by rw [hw])
  intro s hs m hm
  rw [hn, List.mem_flatMap] at hs
  obtain ⟨i, _, hi⟩ := hs
  simp only [restreamPair, List.mem_cons, List.mem_singleton, List.not_mem_nil, or_false] at hi
  rcases hi with rfl | rfl
  · simp at hm
  · simpa using hm.symm

theorem storesThenRestreams_restream (w : World TextLabel) (stored : TextLabel) :
    StoresThenRestreams w (TextLabel.restream (World.mk stored w.wire)) stored := by
  have hw := TextLabel.restream_eq (World.mk stored w.wire)
  have hn : newlySent w (TextLabel.restream (World.mk stored w.wire)) =
      newlySent (World.mk stored w.wire) (TextLabel.restream (World.mk stored w.wire)) := rfl
  refine ⟨by rw [hw], ?_, hn, ?_⟩
  · rw [hn, newlySent_of_append (World.mk stored w.wire) _ _ (by rw [hw]), hw]
  · rw [hn]
    exact restream_shows_current (World.mk stored w.wire)

/-- C6: each of the nine mutating setters of a `TextLabel` stores its argument and then sends
exactly what `restream()` sends on the label with the argument stored; after the call the
matching getter returns the argument, and every creation RPC the call sent is built from the
updated label, so it carries the argument wherever the creation RPC has a field for it (position,
text, colour, draw distance, attachment IDs; the creation RPC has no virtual-world field). -/
theorem setters_store_then_restream (w : World TextLabel) :
    (∀ position : Vector3,
      StoresThenRestreams w (TextLabel.setPosition w position) { w.self with pos := position } ∧
      TextLabel.getPosition (TextLabel.setPosition w position) = position ∧
      ∀ s ∈ newlySent w (TextLabel.setPosition w position), ∀ m : PlayerShowTextLabel,
        s.rpc = RPC.showTextLabel m → m.Position = position) ∧
    (∀ txt : String,
      StoresThenRestreams w (TextLabel.setText w txt) { w.self with text := txt } ∧
      TextLabel.getText (TextLabel.setText w txt) = txt ∧
      ∀ s ∈ newlySent w (TextLabel.setText w txt), ∀ m : PlayerShowTextLabel,
        s.rpc = RPC.showTextLabel m → m.Text = txt) ∧
    (∀ col : Colour,
      StoresThenRestreams w (TextLabel.setColour w col) { w.self with colour := col } ∧
      TextLabel.getColour (TextLabel.setColour w col) = col ∧
      ∀ s ∈ newlySent w (TextLabel.setColour w col), ∀ m : PlayerShowTextLabel,
        s.rpc = RPC.showTextLabel m → m.Col = col) ∧
    (∀ dist : float,
      StoresThenRestreams w (TextLabel.setDrawDistance w dist) { w.self with drawDist := dist } ∧
      TextLabel.getDrawDistance (TextLabel.setDrawDistance w dist) = dist ∧
      ∀ s ∈ newlySent w (TextLabel.setDrawDistance w dist), ∀ m : PlayerShowTextLabel,
        s.rpc = RPC.showTextLabel m → m.DrawDistance = dist) ∧
    (∀ vw : Int,
      StoresThenRestreams w (TextLabel.setVirtualWorld w vw) { w.self with virtualWorld := vw } ∧
      TextLabel.getVirtualWorld (TextLabel.setVirtualWorld w vw) = vw) ∧
    (∀ (player : IPlayer) (offset : Vector3),
      StoresThenRestreams w (TextLabel.attachToPlayer w player offset)
        { w.self with
          pos := offset
          attachmentData := { w.self.attachmentData with playerID := player.getID } } ∧
      TextLabel.getPosition (TextLabel.attachToPlayer w player offset) = offset ∧
      (TextLabel.getAttachmentData (TextLabel.attachToPlayer w player offset)).playerID =
        player.getID ∧
      ∀ s ∈ newlySent w (TextLabel.attachToPlayer w player offset), ∀ m : PlayerShowTextLabel,
        s.rpc = RPC.showTextLabel m → m.Position = offset ∧ m.PlayerAttachID = player.getID) ∧
    (∀ (vehicle : IVehicle) (offset : Vector3),
      StoresThenRestreams w (TextLabel.attachToVehicle w vehicle offset)
        { w.self with
          pos := offset
          attachmentData := { w.self.attachmentData with vehicleID := vehicle.getID } } ∧
      TextLabel.getPosition (TextLabel.attachToVehicle w vehicle offset) = offset ∧
      (TextLabel.getAttachmentData (TextLabel.attachToVehicle w vehicle offset)).vehicleID =
        vehicle.getID ∧
      ∀ s ∈ newlySent w (TextLabel.attachToVehicle w vehicle offset), ∀ m : PlayerShowTextLabel,
        s.rpc = RPC.showTextLabel m → m.Position = offset ∧ m.VehicleAttachID = vehicle.getID) ∧
    (∀ position : Vector3,
      StoresThenRestreams w (TextLabel.detachFromPlayer w position)
        { w.self with
          pos := position
          attachmentData := { w.self.attachmentData with playerID := INVALID_PLAYER_ID } } ∧
      TextLabel.getPosition (TextLabel.detachFromPlayer w position) = position ∧
      (TextLabel.getAttachmentData (TextLabel.detachFromPlayer w position)).playerID =
        INVALID_PLAYER_ID ∧
      ∀ s ∈ newlySent w (TextLabel.detachFromPlayer w position), ∀ m : PlayerShowTextLabel,
        s.rpc = RPC.showTextLabel m →
          m.Position = position ∧ m.PlayerAttachID = INVALID_PLAYER_ID) ∧
    (∀ position : Vector3,
      StoresThenRestreams w (TextLabel.detachFromVehicle w position)
        { w.self with
          pos := position
          attachmentData := { w.self.attachmentData with vehicleID := INVALID_VEHICLE_ID } } ∧
      TextLabel.getPosition (TextLabel.detachFromVehicle w position) = position ∧
      (TextLabel.getAttachmentData (TextLabel.detachFromVehicle w position)).vehicleID =
        INVALID_VEHICLE_ID ∧
      ∀ s ∈ newlySent w (TextLabel.detachFromVehicle w position), ∀ m : PlayerShowTextLabel,
        s.rpc = RPC.showTextLabel m →
          m.Position = position ∧ m.VehicleAttachID = INVALID_VEHICLE_ID) := by
  refine ⟨?_, ?_, ?_, ?_, ?_, ?_, ?_, ?_, ?_⟩
  · intro position
    have h := storesThenRestreams_restream w { w.self with pos := position }
    refine ⟨h, ?_, ?_⟩
    · exact congrArg (fun l : TextLabel => l.pos) h.1
    · intro s hs m hm
      rw [h.2.2.2 s hs m hm]; rfl
  · intro txt
    have h := storesThenRestreams_restream w { w.self with text := txt }
    refine ⟨h, ?_, ?_⟩
    · exact congrArg (fun l : TextLabel => l.text) h.1
    · intro s hs m hm
      rw [h.2.2.2 s hs m hm]; rfl
  · intro col
    have h := storesThenRestreams_restream w { w.self with colour := col }
    refine ⟨h, ?_, ?_⟩
    · exact congrArg (fun l : TextLabel => l.colour) h.1
    · intro s hs m hm
      rw [h.2.2.2 s hs m hm]; rfl
  · intro dist
    have h := storesThenRestreams_restream w { w.self with drawDist := dist }
    refine ⟨h, ?_, ?_⟩
    · exact congrArg (fun l : TextLabel => l.drawDist) h.1
    · intro s hs m hm
      rw [h.2.2.2 s hs m hm]; rfl
  · intro vw
    have h := storesThenRestreams_restream w { w.self with virtualWorld := vw }
    exact ⟨h, congrArg (fun l : TextLabel => l.virtualWorld) h.1⟩
  · intro player offset
    have h := storesThenRestreams_restream w { w.self with
      pos := offset
      attachmentData := { w.self.attachmentData with playerID := player.getID } }
    refine ⟨h, ?_, ?_, ?_⟩
    · exact congrArg (fun l : TextLabel => l.pos) h.1
    · exact congrArg (fun l : TextLabel => l.attachmentData.playerID) h.1
    · intro s hs m hm
      rw [h.2.2.2 s hs m hm]; exact ⟨rfl, rfl⟩
  · intro vehicle offset
    have h := storesThenRestreams_restream w { w.self with
      pos := offset
      attachmentData := { w.self.attachmentData with vehicleID := vehicle.getID } }
    refine ⟨h, ?_, ?_, ?_⟩
    · exact congrArg (fun l : TextLabel => l.pos) h.1
    · exact congrArg (fun l : TextLabel => l.attachmentData.vehicleID) h.1
    · intro s hs m hm
      rw [h.2.2.2 s hs m hm]; exact ⟨rfl, rfl⟩
  · intro position
    have h := storesThenRestreams_restream w { w.self with
      pos := position
      attachmentData := { w.self.attachmentData with playerID := INVALID_PLAYER_ID } }
    refine ⟨h, ?_, ?_, ?_⟩
    · exact congrArg (fun l : TextLabel => l.pos) h.1
    · exact congrArg (fun l : TextLabel => l.attachmentData.playerID) h.1
    · intro s hs m hm
      rw [h.2.2.2 s hs m hm]; exact ⟨rfl, rfl⟩
  · intro position
    have h := storesThenRestreams_restream w { w.self with
      pos := position
      attachmentData := { w.self.attachmentData with vehicleID := INVALID_VEHICLE_ID } }
    refine ⟨h, ?_, ?_, ?_⟩
    · exact congrArg (fun l : TextLabel => l.pos) h.1
    · exact congrArg (fun l : TextLabel => l.attachmentData.vehicleID) h.1
    · intro s hs m hm
      rw [h.2.2.2 s hs m hm]; exact ⟨rfl, rfl⟩

/-! ## The tracker mirrors the clients -/

theorem clientHolds_concat (wire : List Sent) (s : Sent) (labelID P : Int) :
    clientHolds (wire ++ [s]) labelID P = holdStep labelID P (clientHolds wire labelID P) s := by
  simp [clientHolds, List.foldl_append]

theorem createdNotDestroyed_nil (labelID P : Int) : ¬ CreatedNotDestroyed [] labelID P := by
  rintro ⟨pre, m, post, h, _⟩
  simp at h

theorem createdNotDestroyed_concat (wire : List Sent) (s : Sent) (labelID P : Int) :
    CreatedNotDestroyed (wire ++ [s]) labelID P ↔
      (∃ m : PlayerShowTextLabel, m.TextLabelID = labelID ∧ s = Sent.mk P (RPC.showTextLabel m)) ∨
      (CreatedNotDestroyed wire labelID P ∧
        ∀ h : PlayerHideTextLabel, h.TextLabelID = labelID →
          s ≠ Sent.mk P (RPC.hideTextLabel h)) := by
  constructor
  · rintro ⟨pre, m, post, he, hm, hpost⟩
    rcases List.eq_nil_or_concat post with rfl | ⟨post2, x, hpx⟩
    on_goal 2 => rw [List.concat_eq_append] at hpx; subst hpx
    · left
      have h2 := List.append_inj' he rfl
      exact ⟨m, hm, by simpa using h2.2⟩
    · right
      have he2 : wire ++ [s] = (pre ++ Sent.mk P (RPC.showTextLabel m) :: post2) ++ [x] := by
        rw [he]; simp
      have h2 := List.append_inj' he2 rfl
      have hsx : s = x := by simpa using h2.2
      refine ⟨⟨pre, m, post2, h2.1, hm, ?_⟩, ?_⟩
      · intro h hh hin
        exact hpost h hh (List.mem_append_left _ hin)
      · intro h hh hs
        apply hpost h hh
        rw [← hs, hsx]
        simp
  · rintro (⟨m, hm, rfl⟩ | ⟨⟨pre, m, post, he, hm, hpost⟩, hs⟩)
    · exact ⟨wire, m, [], rfl, hm, by simp⟩
    · refine ⟨pre, m, post ++ [s], by rw [he]; simp, hm, ?_⟩
      intro h hh hin
      rcases List.mem_append.mp hin with hin | hin
      · exact hpost h hh hin
      · rw [List.mem_singleton] at hin
        exact hs h hh hin.symm

theorem clientHolds_iff (wire : List Sent) (labelID P : Int) :
    clientHolds wire labelID P = true ↔ CreatedNotDestroyed wire labelID P := by
  induction wire using List.reverseRecOn with
  | nil => simp [clientHolds, createdNotDestroyed_nil]
  | append_singleton wire s ih =>
    rw [clientHolds_concat, createdNotDestroyed_concat, ← ih]
    obtain ⟨q, r⟩ := s
    cases r with
    | showTextLabel m =>
      by_cases hc : q = P ∧ m.TextLabelID = labelID
      · obtain ⟨rfl, hm⟩ := hc
        simp only [holdStep, hm, and_self, if_true, true_iff]
        exact Or.inl ⟨m, hm, rfl⟩
      · simp only [holdStep, hc, if_false]
        constructor
        · intro h
          exact Or.inr ⟨h, by intro h2 _ e; simp at e⟩
        · rintro (⟨m2, hm2, e⟩ | ⟨h, _⟩)
          · simp only [Sent.mk.injEq, RPC.showTextLabel.injEq] at e
            exact absurd ⟨e.1, e.2 ▸ hm2⟩ hc
          · exact h
    | hideTextLabel h =>
      by_cases hc : q = P ∧ h.TextLabelID = labelID
      · obtain ⟨rfl, hm⟩ := hc
        simp only [holdStep, hm, and_self, if_true, Bool.false_eq_true, false_iff]
        rintro (⟨m2, _, e⟩ | ⟨_, hn⟩)
        · simp at e
        · exact hn h hm rfl
      · simp only [holdStep, hc, if_false]
        constructor
        · intro hh
          refine Or.inr ⟨hh, ?_⟩
          intro h2 hh2 e
          simp only [Sent.mk.injEq, RPC.hideTextLabel.injEq] at e
          exact hc ⟨e.1, e.2 ▸ hh2⟩
        · rintro (⟨m2, _, e⟩ | ⟨hh, _⟩)
          · simp at e
          · exact hh

theorem holdStep_pairs (b : TextLabelBase) (ids : List Int) (P : Int) (held : Bool) :
    (ids.flatMap (restreamPair b)).foldl (holdStep b.poolID P) held =
      (decide (P ∈ ids) || held) := by
  induction ids generalizing held with
  | nil => simp
  | cons i rest ih =>
    rw [List.flatMap_cons, List.foldl_append, ih]
    by_cases hi : i = P
    · subst hi
      simp [restreamPair, holdStep, showOf, hideOf]
    · have hi2 : ¬ P = i := fun e => hi e.symm
      simp [restreamPair, holdStep, showOf, hideOf, hi, hi2]

theorem mirrors_restream (labelID : Int) (w : World TextLabel) (stored : TextLabel)
    (hid : stored.poolID = w.self.poolID) (htr : stored.streamedFor_ = w.self.streamedFor_)
    (h : Mirrors labelID w) : Mirrors labelID (TextLabel.restream (World.mk stored w.wire)) := by
  obtain ⟨h1, h2⟩ := h
  rw [TextLabel.restream_eq]
  refine ⟨hid.trans h1, ?_⟩
  intro P
  have hb : stored.toTextLabelBase.poolID = labelID := hid.trans h1
  show stored.streamedFor_.valid P = _
  rw [clientHolds, List.foldl_append, ← hb, holdStep_pairs, hb, htr]
  have h3 := h2 P
  rw [clientHolds] at h3
  rw [← h3]
  simp [UniqueIDArray.valid]

theorem mirrors_streamIn (labelID : Int) (w : World TextLabel) (player : IPlayer)
    (h : Mirrors labelID w) : Mirrors labelID (TextLabel.streamInForPlayer w player) := by
  obtain ⟨h1, h2⟩ := h
  refine ⟨h1, ?_⟩
  intro P
  show (w.self.streamedFor_.add player.getID player).valid P =
    clientHolds (w.wire ++ [Sent.mk player.getID
      (RPC.showTextLabel (showOf w.self.toTextLabelBase false))]) labelID P
  rw [clientHolds_concat, UniqueIDArray.valid_add, ← h2 P]
  have hb : w.self.toTextLabelBase.poolID = labelID := h1
  by_cases hp : player.getID = P
  · subst hp
    simp [holdStep, showOf, hb]
  · have hp2 : ¬ P = player.getID := fun e => hp e.symm
    simp [holdStep, showOf, hp, hp2]

theorem mirrors_streamOut (labelID : Int) (w : World TextLabel) (player : IPlayer)
    (h : Mirrors labelID w) : Mirrors labelID (TextLabel.streamOutForPlayer w player) := by
  obtain ⟨h1, h2⟩ := h
  refine ⟨h1, ?_⟩
  intro P
  show (w.self.streamedFor_.remove player.getID player).valid P =
    clientHolds (w.wire ++ [Sent.mk player.getID
      (RPC.hideTextLabel (hideOf w.self.toTextLabelBase false))]) labelID P
  rw [clientHolds_concat, UniqueIDArray.valid_remove, ← h2 P]
  have hb : w.self.toTextLabelBase.poolID = labelID := h1
  by_cases hp : player.getID = P
  · subst hp
    simp [holdStep, hideOf, hb]
  · have hp2 : ¬ P = player.getID := fun e => hp e.symm
    simp [holdStep, hideOf, hp, hp2]

theorem mirrors_perform (labelID : Int) (w : World TextLabel) (c : Call)
    (h : Mirrors labelID w) : Mirrors labelID (Call.perform w c) := by
  cases c with
  | streamInForPlayer player => exact mirrors_streamIn labelID w player h
  | streamOutForPlayer player => exact mirrors_streamOut labelID w player h
  | restream => exact mirrors_restream labelID w w.self rfl rfl h
  | setPosition position => exact mirrors_restream labelID w _ rfl rfl h
  | setText txt => exact mirrors_restream labelID w _ rfl rfl h
  | setColour col => exact mirrors_restream labelID w _ rfl rfl h
  | setDrawDistance dist => exact mirrors_restream labelID w _ rfl rfl h
  | setVirtualWorld vw => exact mirrors_restream labelID w _ rfl rfl h
  | attachToPlayer player offset => exact mirrors_restream labelID w _ rfl rfl h
  | attachToVehicle vehicle offset => exact mirrors_restream labelID w _ rfl rfl h
  | detachFromPlayer position => exact mirrors_restream labelID w _ rfl rfl h
  | detachFromVehicle position => exact mirrors_restream labelID w _ rfl rfl h

theorem mirrors_performAll (labelID : Int) (calls : List Call) (w : World TextLabel)
    (h : Mirrors labelID w) : Mirrors labelID (performAll w calls) := by
  induction calls generalizing w with
  | nil => exact h
  | cons c rest ih => exact ih _ (mirrors_perform labelID w c h)

/-- C1: start from a label with an empty tracker and nothing sent, and perform any finite
sequence of `streamInForPlayer`, `streamOutForPlayer`, `restream` and mutating-setter calls. Then
for every player `P`, `isStreamedInForPlayer(P)` is true if and only if the wire holds a creation
RPC for this label addressed to `P` with no destruction RPC for this label addressed to `P`
after it. -/
theorem tracker_iff_created_not_destroyed (l : TextLabel) (calls : List Call) (P : IPlayer) :
    TextLabel.isStreamedInForPlayer (performAll (freshWorld l) calls) P = true ↔
      CreatedNotDestroyed (performAll (freshWorld l) calls).wire l.poolID P.getID := by
  have h0 : Mirrors l.poolID (freshWorld l) := by
    refine ⟨rfl, ?_⟩
    intro Q
    simp [freshWorld, UniqueIDArray.valid, UniqueIDArray.empty, clientHolds]
  have h := mirrors_performAll l.poolID calls (freshWorld l) h0
  rw [← clientHolds_iff, ← h.2 P.getID]
  rfl

/-- Witness for C6 on the sample label: `setText("new")` sends tracked player 1 a creation RPC,
and that RPC carries the text "new". -/
theorem setters_store_then_restream_witness :
    Sent.mk 1 (RPC.showTextLabel (showOf { sampleBase with text := "new" } false)) ∈
      newlySent sampleWorld (TextLabel.setText sampleWorld "new") ∧
    (showOf { sampleBase with text := "new" } false).Text = "new" ∧
    TextLabel.getText (TextLabel.setText sampleWorld "new") = "new" :=
  ⟨by decide,
   ((setters_store_then_restream sampleWorld).2.1 "new").2.2
     (Sent.mk 1 (RPC.showTextLabel (showOf { sampleBase with text := "new" } false)))
     (by decide) _ rfl,
   ((setters_store_then_restream sampleWorld).2.1 "new").2.1⟩

/-! ## The two attachment slots -/

theorem restream_self (w : World TextLabel) : (TextLabel.restream w).self = w.self := by
  rw [TextLabel.restream_eq]

theorem scoped_restream_of_owner (w : World PlayerTextLabel) (owner : IPlayer)
    (h : w.self.player = some owner) :
    PlayerTextLabel.restream w =
      some { self := w.self
             wire := w.wire ++
               [Sent.mk owner.getID (RPC.hideTextLabel (hideOf w.self.toTextLabelBase true)),
                Sent.mk owner.getID (RPC.showTextLabel (showOf w.self.toTextLabelBase true))] } := by
  unfold PlayerTextLabel.restream
  rw [h]
  simp [streamInForClient_eq, streamOutForClient_eq, DerivedLabel.base]

/-- C2, counterexample: on the sample label, which starts with no attachment,
`attachToPlayer` (player 3) followed by `attachToVehicle` (vehicle 7) leaves both hosts active. -/
theorem attach_both_hosts_active :
    sampleWorld.self.attachmentData.playerID = INVALID_PLAYER_ID ∧
    sampleWorld.self.attachmentData.vehicleID = INVALID_VEHICLE_ID ∧
    (performAttachCalls sampleWorld
      [AttachCall.attachToPlayer (IPlayer.mk 3) (Vector3.mk 0 0 1),
       AttachCall.attachToVehicle (IVehicle.mk 7) (Vector3.mk 0 0 2)]).self.attachmentData =
      { playerID := 3, vehicleID := 7 } ∧
    BothHostsActive (performAttachCalls sampleWorld
      [AttachCall.attachToPlayer (IPlayer.mk 3) (Vector3.mk 0 0 1),
       AttachCall.attachToVehicle (IVehicle.mk 7) (Vector3.mk 0 0 2)]).self.attachmentData := by
  decide

theorem attach_slots_global (toPlayer toVehicle : Bool) (calls : List AttachCall)
    (w : World TextLabel)
    (hp : toPlayer = false → w.self.attachmentData.playerID = INVALID_PLAYER_ID)
    (hv : toVehicle = false → w.self.attachmentData.vehicleID = INVALID_VEHICLE_ID)
    (hx : (toPlayer && toVehicle) = false)
    (hd : detachesBeforeSwitching toPlayer toVehicle calls = true) :
    ¬ BothHostsActive (performAttachCalls w calls).self.attachmentData := by
  induction calls generalizing w toPlayer toVehicle with
  | nil =>
    rintro ⟨h1, h2⟩
    cases toPlayer
    · exact h1 (hp rfl)
    · cases toVehicle
      · exact h2 (hv rfl)
      · simp at hx
  | cons c rest ih =>
    cases c with
    | attachToPlayer player offset =>
      simp only [detachesBeforeSwitching, Bool.and_eq_true, Bool.not_eq_true'] at hd
      refine ih true toVehicle (AttachCall.perform w (AttachCall.attachToPlayer player offset))
        (by simp) ?_ (by simp [hd.1]) hd.2
      intro h
      show (TextLabel.restream _).self.attachmentData.vehicleID = INVALID_VEHICLE_ID
      rw [restream_self]
      exact hv h
    | attachToVehicle vehicle offset =>
      simp only [detachesBeforeSwitching, Bool.and_eq_true, Bool.not_eq_true'] at hd
      refine ih toPlayer true (AttachCall.perform w (AttachCall.attachToVehicle vehicle offset))
        ?_ (by simp) (by simp [hd.1]) hd.2
      intro h
      show (TextLabel.restream _).self.attachmentData.playerID = INVALID_PLAYER_ID
      rw [restream_self]
      exact hp h
    | detachFromPlayer position =>
      simp only [detachesBeforeSwitching] at hd
      refine ih false toVehicle (AttachCall.perform w (AttachCall.detachFromPlayer position))
        ?_ ?_ (by simp) hd
      · intro _
        show (TextLabel.restream _).self.attachmentData.playerID = INVALID_PLAYER_ID
        rw [restream_self]
      · intro h
        show (TextLabel.restream _).self.attachmentData.vehicleID = INVALID_VEHICLE_ID
        rw [restream_self]
        exact hv h
    | detachFromVehicle position =>
      simp only [detachesBeforeSwitching] at hd
      refine ih toPlayer false (AttachCall.perform w (AttachCall.detachFromVehicle position))
        ?_ ?_ (by simp) hd
      · intro h
        show (TextLabel.restream _).self.attachmentData.playerID = INVALID_PLAYER_ID
        rw [restream_self]
        exact hp h
      · intro _
        show (TextLabel.restream _).self.attachmentData.vehicleID = INVALID_VEHICLE_ID
        rw [restream_self]

theorem attach_slots_scoped (toPlayer toVehicle : Bool) (calls : List AttachCall)
    (w : World PlayerTextLabel) (owner : IPlayer) (ho : w.self.player = some owner)
    (hp : toPlayer = false → w.self.attachmentData.playerID = INVALID_PLAYER_ID)
    (hv : toVehicle = false → w.self.attachmentData.vehicleID = INVALID_VEHICLE_ID)
    (hx : (toPlayer && toVehicle) = false)
    (hd : detachesBeforeSwitching toPlayer toVehicle calls = true) :
    ∃ w2, performScopedAttachCalls w calls = some w2 ∧
      ¬ BothHostsActive w2.self.attachmentData := by
  induction calls generalizing w toPlayer toVehicle with
  | nil =>
    refine ⟨w, rfl, ?_⟩
    rintro ⟨h1, h2⟩
    cases toPlayer
    · exact h1 (hp rfl)
    · cases toVehicle
      · exact h2 (hv rfl)
      · simp at hx
  | cons c rest ih =>
    cases c with
    | attachToPlayer player offset =>
      simp only [detachesBeforeSwitching, Bool.and_eq_true, Bool.not_eq_true'] at hd
      have hr := scoped_restream_of_owner
        (World.mk { w.self with
          pos := offset
          attachmentData := { w.self.attachmentData with playerID := player.getID } } w.wire)
        owner ho
      simp only [performScopedAttachCalls, AttachCall.performScoped,
        PlayerTextLabel.attachToPlayer, hr]
      exact ih true toVehicle _ ho (by simp) (fun h => hv h) (by simp [hd.1]) hd.2
    | attachToVehicle vehicle offset =>
      simp only [detachesBeforeSwitching, Bool.and_eq_true, Bool.not_eq_true'] at hd
      have hr := scoped_restream_of_owner
        (World.mk { w.self with
          pos := offset
          attachmentData := { w.self.attachmentData with vehicleID := vehicle.getID } } w.wire)
        owner ho
      simp only [performScopedAttachCalls, AttachCall.performScoped,
        PlayerTextLabel.attachToVehicle, hr]
      exact ih toPlayer true _ ho (fun h => hp h) (by simp) (by simp [hd.1]) hd.2
    | detachFromPlayer position =>
      simp only [detachesBeforeSwitching] at hd
      have hr := scoped_restream_of_owner
        (World.mk { w.self with
          pos := position
          attachmentData := { w.self.attachmentData with playerID := INVALID_PLAYER_ID } } w.wire)
        owner ho
      simp only [performScopedAttachCalls, AttachCall.performScoped,
        PlayerTextLabel.detachFromPlayer, hr]
      exact ih false toVehicle _ ho (fun _ => rfl) (fun h => hv h) (by simp) hd
    | detachFromVehicle position =>
      simp only [detachesBeforeSwitching] at hd
      have hr := scoped_restream_of_owner
        (World.mk { w.self with
          pos := position
          attachmentData := { w.self.attachmentData with vehicleID := INVALID_VEHICLE_ID } } w.wire)
        owner ho
      simp only [performScopedAttachCalls, AttachCall.performScoped,
        PlayerTextLabel.detachFromVehicle, hr]
      exact ih toPlayer false _ ho (fun h => hp h) (fun _ => rfl) (by simp) hd

/-- C2, amended: take a label with no attachment and a sequence of `attachToPlayer`,
`attachToVehicle`, `detachFromPlayer` and `detachFromVehicle` calls in which the host is never
switched without a detach (no `attachToPlayer` between an `attachToVehicle` and the next
`detachFromVehicle`, no `attachToVehicle` between an `attachToPlayer` and the next
`detachFromPlayer`). Then at most one host is active afterwards. This holds for a global label,
and for a player-scoped label with an owner, on which the whole sequence runs to completion. -/
theorem one_host_when_detached_before_switching (calls : List AttachCall)
    (hd : detachesBeforeSwitching false false calls = true) :
    (∀ w : World TextLabel,
      w.self.attachmentData.playerID = INVALID_PLAYER_ID →
      w.self.attachmentData.vehicleID = INVALID_VEHICLE_ID →
      ¬ BothHostsActive (performAttachCalls w calls).self.attachmentData) ∧
    (∀ (w : World PlayerTextLabel) (owner : IPlayer),
      w.self.player = some owner →
      w.self.attachmentData.playerID = INVALID_PLAYER_ID →
      w.self.attachmentData.vehicleID = INVALID_VEHICLE_ID →
      ∃ w2, performScopedAttachCalls w calls = some w2 ∧
        ¬ BothHostsActive w2.self.attachmentData) := by
  constructor
  · intro w hp hv
    exact attach_slots_global false false calls w (fun _ => hp) (fun _ => hv) rfl hd
  · intro w owner ho hp hv
    exact attach_slots_scoped false false calls w owner ho (fun _ => hp) (fun _ => hv) rfl hd

/-- Witness for the amended C2: attach to player 3, detach, attach to vehicle 7, on the sample
global label; only the vehicle host is active afterwards. -/
theorem one_host_when_detached_before_switching_witness :
    detachesBeforeSwitching false false
      [AttachCall.attachToPlayer (IPlayer.mk 3) (Vector3.mk 0 0 1),
       AttachCall.detachFromPlayer (Vector3.mk 9 9 9),
       AttachCall.attachToVehicle (IVehicle.mk 7) (Vector3.mk 0 0 2)] = true ∧
    sampleWorld.self.attachmentData.playerID = INVALID_PLAYER_ID ∧
    sampleWorld.self.attachmentData.vehicleID = INVALID_VEHICLE_ID ∧
    ¬ BothHostsActive (performAttachCalls sampleWorld
      [AttachCall.attachToPlayer (IPlayer.mk 3) (Vector3.mk 0 0 1),
       AttachCall.detachFromPlayer (Vector3.mk 9 9 9),
       AttachCall.attachToVehicle (IVehicle.mk 7) (Vector3.mk 0 0 2)]).self.attachmentData :=
  ⟨by decide, by decide, by decide,
   (one_host_when_detached_before_switching _ (by decide)).1 sampleWorld
     (by decide) (by decide)⟩

/-! ## The player-scoped label -/

theorem scoped_destructor_of_owner (w : World PlayerTextLabel) (owner : IPlayer)
    (h : w.self.player = some owner) :
    PlayerTextLabel.destructor w =
      { self := w.self
        wire := w.wire ++
          [Sent.mk owner.getID (RPC.hideTextLabel
            { PlayerTextLabel := false, TextLabelID := w.self.poolID })] } := by
  unfold PlayerTextLabel.destructor
  rw [h]
  rfl

theorem scoped_restream_of_null (w : World PlayerTextLabel) (h : w.self.player = none) :
    PlayerTextLabel.restream w = none := by
  unfold PlayerTextLabel.restream
  rw [h]

theorem scoped_setters_of_null (w : World PlayerTextLabel) (h : w.self.player = none) :
    (∀ position, PlayerTextLabel.setPosition w position = none) ∧
    (∀ txt, PlayerTextLabel.setText w txt = none) ∧
    (∀ col, PlayerTextLabel.setColour w col = none) ∧
    (∀ dist, PlayerTextLabel.setDrawDistance w dist = none) ∧
    (∀ player offset, PlayerTextLabel.attachToPlayer w player offset = none) ∧
    (∀ vehicle offset, PlayerTextLabel.attachToVehicle w vehicle offset = none) ∧
    (∀ position, PlayerTextLabel.detachFromPlayer w position = none) ∧
    (∀ position, PlayerTextLabel.detachFromVehicle w position = none) ∧
    PlayerTextLabel.destructor w = w := by
  refine ⟨?_, ?_, ?_, ?_, ?_, ?_, ?_, ?_, ?_⟩
  · intro position; exact scoped_restream_of_null _ h
  · intro txt; exact scoped_restream_of_null _ h
  · intro col; exact scoped_restream_of_null _ h
  · intro dist; exact scoped_restream_of_null _ h
  · intro player offset; exact scoped_restream_of_null _ h
  · intro vehicle offset; exact scoped_restream_of_null _ h
  · intro position; exact scoped_restream_of_null _ h
  · intro position; exact scoped_restream_of_null _ h
  · unfold PlayerTextLabel.destructor
    rw [h]

/-- C3: on the sample player-scoped label (pool ID 5, owner player 2) the destructor sends the
owner exactly one destruction RPC with the right pool ID, but with the kind flag false, whereas
`restream()` on the same label sends its destruction and creation RPCs with the kind flag true;
with a null owner the destructor sends nothing. -/
theorem scoped_destructor_sends_global_kind :
    newlySent sampleOwnedWorld (PlayerTextLabel.destructor sampleOwnedWorld) =
      [Sent.mk 2 (RPC.hideTextLabel { PlayerTextLabel := false, TextLabelID := 5 })] ∧
    PlayerTextLabel.restream sampleOwnedWorld =
      some { self := sampleOwnedLabel
             wire := [Sent.mk 2 (RPC.hideTextLabel { PlayerTextLabel := true, TextLabelID := 5 }),
                      Sent.mk 2 (RPC.showTextLabel (showOf sampleBase true))] } ∧
    (showOf sampleBase true).PlayerTextLabel = true ∧
    newlySent sampleOwnerlessWorld (PlayerTextLabel.destructor sampleOwnerlessWorld) = [] := by
  decide

/-- C9: on the sample player-scoped label whose owner pointer is null, each of the eight mutating
setters reaches `restream()`, which dereferences the null owner (`none`), while the destructor,
which tests the pointer first, completes and sends nothing. -/
theorem ownerless_setters_dereference_null :
    sampleOwnerlessWorld.self.player = none ∧
    PlayerTextLabel.setPosition sampleOwnerlessWorld (Vector3.mk 7 8 9) = none ∧
    PlayerTextLabel.setText sampleOwnerlessWorld "new" = none ∧
    PlayerTextLabel.setColour sampleOwnerlessWorld (Colour.mk 0 255 0 255) = none ∧
    PlayerTextLabel.setDrawDistance sampleOwnerlessWorld 10 = none ∧
    PlayerTextLabel.attachToPlayer sampleOwnerlessWorld (IPlayer.mk 3) (Vector3.mk 0 0 1) = none ∧
    PlayerTextLabel.attachToVehicle sampleOwnerlessWorld (IVehicle.mk 7) (Vector3.mk 0 0 2) =
      none ∧
    PlayerTextLabel.detachFromPlayer sampleOwnerlessWorld (Vector3.mk 7 8 9) = none ∧
    PlayerTextLabel.detachFromVehicle sampleOwnerlessWorld (Vector3.mk 7 8 9) = none ∧
    PlayerTextLabel.destructor sampleOwnerlessWorld = sampleOwnerlessWorld := by
  decide

/-! ## Unloading a sibling component -/

theorem onFree_fields (mgr : PawnManager) (c : ComponentPtr) :
    PawnComponent.onFree mgr c =
      { actors := mgr.actors
        checkpoints := PawnComponent.COMPONENT_UNLOADED c mgr.checkpoints
        classes := PawnComponent.COMPONENT_UNLOADED c mgr.classes
        console := PawnComponent.COMPONENT_UNLOADED c mgr.console
        databases := PawnComponent.COMPONENT_UNLOADED c mgr.databases
        dialogs := PawnComponent.COMPONENT_UNLOADED c mgr.dialogs
        gangzones := PawnComponent.COMPONENT_UNLOADED c mgr.gangzones
        menus := PawnComponent.COMPONENT_UNLOADED c mgr.menus
        objects := PawnComponent.COMPONENT_UNLOADED c mgr.objects
        pickups := PawnComponent.COMPONENT_UNLOADED c mgr.pickups
        textdraws := PawnComponent.COMPONENT_UNLOADED c mgr.textdraws
        textlabels := PawnComponent.COMPONENT_UNLOADED c mgr.textlabels
        timers := PawnComponent.COMPONENT_UNLOADED c mgr.timers
        vars := PawnComponent.COMPONENT_UNLOADED c mgr.vars
        vehicles := PawnComponent.COMPONENT_UNLOADED c mgr.vehicles } := rfl

/-- C10: after `onInit` on the sample component list (actors at address 100, console at 200,
vehicles at 300), `onFree` of the actors component leaves `actors` still pointing at address 100,
whereas `onFree` of the console or of the vehicles component nulls its reference. -/
theorem onFree_keeps_actors :
    (PawnComponent.onInit {} sampleComponents).actors = some 100 ∧
    (PawnComponent.onFree (PawnComponent.onInit {} sampleComponents) (some 100)).actors =
      some 100 ∧
    (PawnComponent.onFree (PawnComponent.onInit {} sampleComponents) (some 200)).console =
      none ∧
    (PawnComponent.onFree (PawnComponent.onInit {} sampleComponents) (some 300)).vehicles =
      none := by
  decide

end OpenMP
